import Mathlib

/-!
Shallow embedding of the lm77-2.4 driver (lm77.c / lm77.h, lm_sensors for
Linux 2.4): register codec, cache refresh, setpoint validation, bus probe
and chip setup, with theorems checking the specification claims.

Conventions of the embedding:
* C `int` values are `Int`; C truncating division is `Int.tdiv`.
* Unsigned 16-bit register values are `Nat` below 65536; the C cast
  `(u16)x` of a 32-bit `int x` is `(x % 65536).toNat` (the `%` on `Int` is
  Euclidean, so this is exactly the two complement low 16 bits).
* A C bit test `x & m` with `m < 2^16` on an `int x` equals the same test
  on the low 16 bits of `x`, so such tests are computed on `Nat` after
  truncation; the single-bit test `x & 0x200` of a possibly negative `x`
  is rendered as `512 ≤ x % 1024` (bit 9 of the two complement form).
* Bus traffic is explicit: SMBus reads come from oracle functions indexed
  by the transaction count and the register, and writes are returned as a
  trace list, so that "no bus access" is a provable statement.
* The per-device semaphore serializes the callers; the embedding passes
  the guarded state explicitly, so each modeled operation is one critical
  section.
-/

/-! ## Register codec (src/lm77.h) -/

/-- `#define LM77_TEMP_MIN (-55000)` -/
def LM77_TEMP_MIN : Int := -55000

/-- `#define LM77_TEMP_MAX 125000` -/
def LM77_TEMP_MAX : Int := 125000

/-- `#define LM77_TEMP_MASK 0x1ff8` -/
def LM77_TEMP_MASK : Nat := 0x1ff8

/-- The lm_sensors clamp macro:
`((value) < (low) ? (low) : ((value) > (high) ? (high) : (value)))`. -/
def SENSORS_LIMIT (value low high : Int) : Int :=
  if value < low then low else if value > high then high else value

/-- The tail of `LM77_TEMP_TO_REG` after the division: takes the quotient
`q = ntemp / 500` and produces the 16-bit register value.  In the source:
`ntemp = (ntemp / 500) << 3; if (ntemp & 0x200) ntemp |= 0xe000; return (u16)ntemp;`
(`q << 3` is `q * 8`; the cast to `u16` keeps the low 16 bits, and the
`|= 0xe000` only touches bits 13..15, so it commutes with the cast). -/
def lm77_encode_quot (q : Int) : Nat :=
  let shifted := q * 8
  if 512 ≤ shifted % 1024 then ((shifted % 65536).toNat) ||| 0xe000
  else (shifted % 65536).toNat

/-- `static inline u16 LM77_TEMP_TO_REG(int temp)` from src/lm77.h:
clamp to [-55000, 125000], divide by 500 truncating toward zero, shift
left by 3, force bits 13..15 when bit 9 is set, return as `u16`. -/
def LM77_TEMP_TO_REG (temp : Int) : Nat :=
  lm77_encode_quot (Int.tdiv (SENSORS_LIMIT temp LM77_TEMP_MIN LM77_TEMP_MAX) 500)

/-- `static inline int LM77_TEMP_FROM_REG(u16 reg)` from src/lm77.h:
`int val = ((reg & LM77_TEMP_MASK) >> 3); if (val & 0x200) val -= 1024;
return (val *= 500);` -/
def LM77_TEMP_FROM_REG (reg : Nat) : Int :=
  let val := (reg &&& LM77_TEMP_MASK) >>> 3
  let sval : Int := if val &&& 0x200 ≠ 0 then (val : Int) - 1024 else (val : Int)
  sval * 500

/-! ## Registers, device state and bus access (src/lm77.c) -/

/-- `#define LM77_REG_TEMP 0x00` -/
def LM77_REG_TEMP : Nat := 0x00

/-- `#define LM77_REG_CONF 0x01` -/
def LM77_REG_CONF : Nat := 0x01

/-- `#define LM77_REG_T_HYST 0x02` -/
def LM77_REG_T_HYST : Nat := 0x02

/-- `#define LM77_REG_T_CRIT 0x03` -/
def LM77_REG_T_CRIT : Nat := 0x03

/-- `#define LM77_REG_T_LOW 0x04` -/
def LM77_REG_T_LOW : Nat := 0x04

/-- `#define LM77_REG_T_HIGH 0x05` -/
def LM77_REG_T_HIGH : Nat := 0x05

/-- `#define LM77_ALARM_MASK 0x0007` -/
def LM77_ALARM_MASK : Nat := 0x0007

/-- `#define LM77_SYSCTL_TEMP 1200` -/
def LM77_SYSCTL_TEMP : Nat := 1200

/-- `#define LM77_SYSCTL_TEMP_CRIT 1201` -/
def LM77_SYSCTL_TEMP_CRIT : Nat := 1201

/-- `#define LM77_SYSCTL_TEMP_HYST 1202` -/
def LM77_SYSCTL_TEMP_HYST : Nat := 1202

/-- `#define LM77_SC_NOTSET -99999`: marks an entry of the setpoint array
as "not given by the user". -/
def LM77_SC_NOTSET : Int := -99999

/-- The cached fields of `struct lm77_data` (the embedded i2c client, the
sysctl id and the update semaphore carry no cached device data). -/
structure lm77_data where
  valid : Bool          -- char valid
  last_updated : Nat    -- unsigned long last_updated, in jiffies
  temp_input : Int      -- int temp_input
  temp_crit : Int       -- int temp_crit
  temp_min : Int        -- int temp_min
  temp_max : Int        -- int temp_max
  temp_hyst : Int       -- int temp_hyst
  alarms : Nat          -- u8 alarms
deriving DecidableEq, Repr

/-- The C cast of an `int` to `u16`: the low 16 bits of the two
complement form. -/
def toU16 (x : Int) : Nat := (x % 65536).toNat

/-- Linux `swab16`: `((x & 0xff) << 8) | ((x >> 8) & 0xff)` on a u16. -/
def swab16 (x : Nat) : Nat := ((x &&& 0xff) <<< 8) ||| ((x >>> 8) &&& 0xff)

/-- `lm77_read_value`: a byte read for the configuration register, else
`swab16` of a word read.  `smbus reg` is the `int` the SMBus layer
returns for this transaction (register data, or a negative errno on
failure).  `swab16` takes a `u16` argument, so for word registers the
result is always a value in [0, 65536) — a negative errno never
survives the byte swap. -/
def lm77_read_value (smbus : Nat → Int) (reg : Nat) : Int :=
  if reg = LM77_REG_CONF then smbus reg
  else (swab16 (toU16 (smbus reg)) : Int)

/-- Word size of `unsigned long` on the i386 targets of lm_sensors 2.4. -/
def ULONG_MOD : Nat := 2 ^ 32

/-- C unsigned subtraction `a - b` on `unsigned long` (both below
`ULONG_MOD`). -/
def ulong_sub (a b : Nat) : Nat := (a + ULONG_MOD - b) % ULONG_MOD

/-! ## Cache refresh (lm77_update_client) -/

/-- The refresh trigger of `lm77_update_client`:
`(jiffies - data->last_updated > HZ + HZ / 2) || (jiffies < data->last_updated) || !data->valid`.
`now` plays jiffies; `HZ` is the host tick rate. -/
def lm77_needs_update (HZ now : Nat) (d : lm77_data) : Bool :=
  decide (HZ + HZ / 2 < ulong_sub now d.last_updated) ||
    decide (now < d.last_updated) || !d.valid

/-- `lm77_update_client`: under the update lock, when the staleness
policy triggers, re-read the five registers (the live-temperature
register twice: once for the reading, once for the alarm bits), store
the decoded values, stamp the time and mark the snapshot valid;
otherwise leave the state alone.  `smbus t reg` is the result of the
(t+1)-th SMBus read of this call, addressed to register `reg`.  Returns
the new state and the number of bus read transactions issued. -/
def lm77_update_client (HZ : Nat) (smbus : Nat → Nat → Int) (now : Nat)
    (d : lm77_data) : lm77_data × Nat :=
  if lm77_needs_update HZ now d then
    ({ valid := true
       last_updated := now
       temp_input := LM77_TEMP_FROM_REG (toU16 (lm77_read_value (smbus 0) LM77_REG_TEMP))
       temp_hyst := LM77_TEMP_FROM_REG (toU16 (lm77_read_value (smbus 1) LM77_REG_T_HYST))
       temp_crit := LM77_TEMP_FROM_REG (toU16 (lm77_read_value (smbus 2) LM77_REG_T_CRIT))
       temp_min := LM77_TEMP_FROM_REG (toU16 (lm77_read_value (smbus 3) LM77_REG_T_LOW))
       temp_max := LM77_TEMP_FROM_REG (toU16 (lm77_read_value (smbus 4) LM77_REG_T_HIGH))
       alarms := toU16 (lm77_read_value (smbus 5) LM77_REG_TEMP) &&& LM77_ALARM_MASK }, 6)
  else (d, 0)

/-! ## Setpoint validation (lm77_proc_temp, SENSORS_PROC_REAL_WRITE) -/

/-- The `new[4]` array of `lm77_proc_temp` after the WRITE switch:
`new[0]`/`new[1]` from the temp endpoint (up to two values),
`new[2]` from the critical endpoint, `new[3]` from the hysteresis
endpoint; everything else stays `LM77_SC_NOTSET`. -/
structure lm77_setpoint_req where
  new0 : Int
  new1 : Int
  new2 : Int
  new3 : Int
deriving DecidableEq, Repr

/-- The switch over `ctl_name` filling `new[]` from `results[]`. -/
def lm77_proc_new (ctl_name nrels_mag : Nat) (results : List Int) :
    lm77_setpoint_req :=
  { new0 := if ctl_name = LM77_SYSCTL_TEMP ∧ 1 ≤ nrels_mag then
              results.getD 0 LM77_SC_NOTSET else LM77_SC_NOTSET
    new1 := if ctl_name = LM77_SYSCTL_TEMP ∧ 2 ≤ nrels_mag then
              results.getD 1 LM77_SC_NOTSET else LM77_SC_NOTSET
    new2 := if ctl_name = LM77_SYSCTL_TEMP_CRIT ∧ 1 ≤ nrels_mag then
              results.getD 0 LM77_SC_NOTSET else LM77_SC_NOTSET
    new3 := if ctl_name = LM77_SYSCTL_TEMP_HYST ∧ 1 ≤ nrels_mag then
              results.getD 0 LM77_SC_NOTSET else LM77_SC_NOTSET }

/-- The `check[4]` array: each candidate is the proposed value, or the
cached one where the user did not specify something else
(`check[i] = (new[i] == LM77_SC_NOTSET) ? data->... : new[i]`). -/
structure lm77_candidates where
  check0 : Int   -- temp_min
  check1 : Int   -- temp_max
  check2 : Int   -- temp_crit (populated but used by none of the checks)
  check3 : Int   -- temp_hyst
deriving DecidableEq, Repr

/-- Populate `check[]` from `new[]` and the cached state. -/
def lm77_proc_check (r : lm77_setpoint_req) (d : lm77_data) : lm77_candidates :=
  { check0 := if r.new0 = LM77_SC_NOTSET then d.temp_min else r.new0
    check1 := if r.new1 = LM77_SC_NOTSET then d.temp_max else r.new1
    check2 := if r.new2 = LM77_SC_NOTSET then d.temp_crit else r.new2
    check3 := if r.new3 = LM77_SC_NOTSET then d.temp_hyst else r.new3 }

/-- Check 1 of the source fails: `check[0] < LM77_TEMP_MIN || check[0] > LM77_TEMP_MAX`. -/
def lm77_fail1 (c : lm77_candidates) : Bool :=
  decide (c.check0 < LM77_TEMP_MIN) || decide (c.check0 > LM77_TEMP_MAX)

/-- Check 2 of the source fails: `check[1] < LM77_TEMP_MIN || check[1] > LM77_TEMP_MAX`. -/
def lm77_fail2 (c : lm77_candidates) : Bool :=
  decide (c.check1 < LM77_TEMP_MIN) || decide (c.check1 > LM77_TEMP_MAX)

/-- Check 3 of the source fails: `check[0] >= check[1]`. -/
def lm77_fail3 (c : lm77_candidates) : Bool :=
  decide (c.check0 ≥ c.check1)

/-- Check 4 of the source fails: `(check[0] + check[4]) >= (check[1] - check[4])`.
`check` has four entries (indices 0..3), so `check[4]` reads past the end
of the array; its indeterminate value is the parameter `oob`.  The
mapping comment in the source says the hysteresis candidate is
`check[3]`, which this comparison never consults. -/
def lm77_fail4 (c : lm77_candidates) (oob : Int) : Bool :=
  decide (c.check0 + oob ≥ c.check1 - oob)

/-- The diagnostics the validation pass emits (one `printk` per failed
check, all four checks always evaluated, in source order). -/
def lm77_violations (c : lm77_candidates) (oob : Int) : List Nat :=
  (if lm77_fail1 c then [1] else []) ++ (if lm77_fail2 c then [2] else []) ++
    (if lm77_fail3 c then [3] else []) ++ (if lm77_fail4 c oob then [4] else [])

/-- `passed` after the four checks: 1 unless some check set it to 0. -/
def lm77_passed (c : lm77_candidates) (oob : Int) : Bool :=
  !(lm77_fail1 c || lm77_fail2 c || lm77_fail3 c || lm77_fail4 c oob)

/-- Outcome of one WRITE call of `lm77_proc_temp`: the cached state
afterwards, the bus writes issued (register, encoded value, in order),
whether the checks passed, and the violation diagnostics emitted. -/
structure lm77_write_result where
  data : lm77_data
  writes : List (Nat × Nat)
  passed : Bool
  violations : List Nat
deriving DecidableEq, Repr

/-- The `SENSORS_PROC_REAL_WRITE` arm of `lm77_proc_temp`: fill `new[]`,
merge into `check[]`, run the four checks, and apply the provided fields
in order (low, high, critical, hysteresis) only when all checks passed.
Note the source updates `data->temp_max` (not `data->temp_hyst`) when
applying `new[3]`, while writing the `LM77_REG_T_HYST` register. -/
def lm77_proc_temp_write (ctl_name nrels_mag : Nat) (results : List Int)
    (oob : Int) (d : lm77_data) : lm77_write_result :=
  let n := lm77_proc_new ctl_name nrels_mag results
  let c := lm77_proc_check n d
  if lm77_passed c oob then
    let d1 := if n.new0 ≠ LM77_SC_NOTSET then { d with temp_min := n.new0 } else d
    let d2 := if n.new1 ≠ LM77_SC_NOTSET then { d1 with temp_max := n.new1 } else d1
    let d3 := if n.new2 ≠ LM77_SC_NOTSET then { d2 with temp_crit := n.new2 } else d2
    let d4 := if n.new3 ≠ LM77_SC_NOTSET then { d3 with temp_max := n.new3 } else d3
    { data := d4
      writes :=
        (if n.new0 ≠ LM77_SC_NOTSET then [(LM77_REG_T_LOW, LM77_TEMP_TO_REG n.new0)] else []) ++
        (if n.new1 ≠ LM77_SC_NOTSET then [(LM77_REG_T_HIGH, LM77_TEMP_TO_REG n.new1)] else []) ++
        (if n.new2 ≠ LM77_SC_NOTSET then [(LM77_REG_T_CRIT, LM77_TEMP_TO_REG n.new2)] else []) ++
        (if n.new3 ≠ LM77_SC_NOTSET then [(LM77_REG_T_HYST, LM77_TEMP_TO_REG n.new3)] else [])
      passed := true
      violations := lm77_violations c oob }
  else
    { data := d, writes := [], passed := false, violations := lm77_violations c oob }

/-- The margin check as the specification words it (§4.3): candidate low
plus candidate hysteresis must stay below candidate high minus candidate
hysteresis.  Stated from the spec to compare against the code, whose
comparison reads `check[4]` instead of the hysteresis `check[3]`. -/
def spec_margin_ok (low high hyst : Int) : Bool :=
  decide (low + hyst < high - hyst)

/-! ## Probe and chip setup (lm77_detect, lm77_init_client) -/

/-- One row of the register-aliasing scan at 8-aligned offset `i`: the C
condition reads `i+1` (byte) and `i+2`..`i+5` (words) left to right and
`||` short-circuits, so later reads of a failing row are not issued.
`c` is the bus-transaction counter; the result is the counter after the
row, or `none` on a mismatch (goto error1). -/
def lm77_alias_row (ob ow : Nat → Nat → Int) (c i : Nat)
    (conf hyst crit mn mx : Int) : Option Nat :=
  if ob c (i + 1) ≠ conf then none
  else if ow (c + 1) (i + 2) ≠ hyst then none
  else if ow (c + 2) (i + 3) ≠ crit then none
  else if ow (c + 3) (i + 4) ≠ mn then none
  else if ow (c + 4) (i + 5) ≠ mx then none
  else some (c + 5)

/-- The loop `for (i = 8; i <= 0xff; i += 8)` over the given offsets. -/
def lm77_alias_scan (ob ow : Nat → Nat → Int)
    (conf hyst crit mn mx : Int) : List Nat → Nat → Option Nat
  | [], c => some c
  | i :: rest, c =>
    match lm77_alias_row ob ow c i conf hyst crit mn mx with
    | none => none
    | some c2 => lm77_alias_scan ob ow conf hyst crit mn mx rest c2

/-- The offsets 8, 16, ..., 248 the loop visits. -/
def lm77_alias_offsets : List Nat := (List.range 31).map (fun k => 8 * k + 8)

/-- The sign-bit test on one word reading: `(x & 0x00f0)` must be `0xf0`
or `0x0` (the mask sees the low 16 bits of the two complement form). -/
def lm77_signbits_ok (x : Int) : Bool :=
  decide ((x % 65536).toNat &&& 0xf0 = 0xf0) || decide ((x % 65536).toNat &&& 0xf0 = 0)

/-- One shadow-register round: re-read register 0, then require
registers 6 and 7 to echo it (`||` short-circuits on the first
mismatch). -/
def lm77_shadow_round (ow : Nat → Nat → Int) (c : Nat) : Option Nat :=
  let v := ow c 0
  if ow (c + 1) 6 ≠ v then none
  else if ow (c + 2) 7 ≠ v then none
  else some (c + 3)

/-- The probe heuristic of `lm77_detect` for `kind < 0`: read registers
0..5 (a byte read for the configuration, word reads otherwise), run the
aliasing scan, the sign-bit check on the five word readings, the
unused-bits check `conf & 0xe0` on the configuration byte, and three
shadow-register rounds.  `some c` means every check passed after `c` bus
reads; `none` means some check failed and control jumped to error1. -/
def lm77_probe (ob ow : Nat → Nat → Int) : Option Nat :=
  let cur := ow 0 0
  let conf := ob 1 1
  let hyst := ow 2 2
  let crit := ow 3 3
  let mn := ow 4 4
  let mx := ow 5 5
  match lm77_alias_scan ob ow conf hyst crit mn mx lm77_alias_offsets 6 with
  | none => none
  | some c =>
    if ¬ (lm77_signbits_ok cur ∧ lm77_signbits_ok hyst ∧ lm77_signbits_ok crit ∧
          lm77_signbits_ok mn ∧ lm77_signbits_ok mx) then none
    else if (conf % 256).toNat &&& 0xe0 ≠ 0 then none
    else
      match lm77_shadow_round ow c with
      | none => none
      | some c2 =>
        match lm77_shadow_round ow c2 with
        | none => none
        | some c3 =>
          match lm77_shadow_round ow c3 with
          | none => none
          | some c4 => some c4

/-- `lm77_init_client`: read the configuration register through
`lm77_read_value`, then write 0 to it (`u16 new = 0`; the read value is
tested for the shutdown bit only to print a message and is never merged
into `new`, and the `LM77_FAULT_QUEUE` block is not compiled).  Returns
the write trace (register, value). -/
def lm77_init_client (smbus : Nat → Int) : List (Nat × Nat) :=
  let _conf := lm77_read_value smbus LM77_REG_CONF
  let new : Nat := 0
  [(LM77_REG_CONF, new)]

/-- Outcome of `lm77_detect`: its return value, whether a client with
its `lm77_data` remained attached, whether the allocated data was freed,
and the writes `lm77_init_client` issued. -/
structure lm77_detect_result where
  ret : Int
  attached : Bool
  freed : Bool
  init_writes : List (Nat × Nat)
deriving DecidableEq, Repr

/-- `lm77_detect` for a probe request (`kind < 0`) on an adapter with
the needed functionality, with allocation and framework registration
succeeding: a failed probe check jumps to error1 (`kfree(data)`,
`return err` with `err` still 0, so the scan caller sees "no device
here", not a failure); a passed probe attaches the client, registers the
sysctl directory and sets up the chip via `lm77_init_client`, whose one
read (the configuration byte) is the next bus transaction. -/
def lm77_detect (ob ow : Nat → Nat → Int) : lm77_detect_result :=
  match lm77_probe ob ow with
  | none => { ret := 0, attached := false, freed := true, init_writes := [] }
  | some c =>
    { ret := 0, attached := true, freed := false
      init_writes := lm77_init_client (fun reg => ob c reg) }

/-! ## Concrete cached states used as test fixtures -/

/-- A healthy cached snapshot: temp 20 deg, crit 90 deg, window
[10, 70] deg, hysteresis 2 deg, no alarms. -/
def lm77_cache0 : lm77_data :=
  { valid := true, last_updated := 0, temp_input := 20000, temp_crit := 90000
    temp_min := 10000, temp_max := 70000, temp_hyst := 2000, alarms := 0 }

/-- Like `lm77_cache0` with a cached hysteresis of 600 millidegrees. -/
def lm77_cache600 : lm77_data := { lm77_cache0 with temp_hyst := 600 }

/-- A corrupt cached snapshot: the low setpoint (80 deg) sits above the
high setpoint (70 deg). -/
def lm77_cache_corrupt : lm77_data := { lm77_cache0 with temp_min := 80000 }

/-- A snapshot never refreshed yet. -/
def lm77_cache_invalid : lm77_data :=
  { valid := false, last_updated := 0, temp_input := 0, temp_crit := 0
    temp_min := 0, temp_max := 0, temp_hyst := 0, alarms := 0 }

/-! ## Sanity examples -/

example : LM77_TEMP_TO_REG 500 = 0x0008 := by decide
example : LM77_TEMP_TO_REG (-500) = 0xfff8 := by decide
example : LM77_TEMP_FROM_REG 0xfff8 = -500 := by decide
example : LM77_TEMP_FROM_REG (LM77_TEMP_TO_REG 777) = 500 := by decide
example : LM77_TEMP_TO_REG 200000 = LM77_TEMP_TO_REG 125000 := by decide
example : LM77_TEMP_TO_REG (-999999) = LM77_TEMP_TO_REG (-55000) := by decide
example : swab16 0x1234 = 0x3412 := by decide

/-! ## Codec theorems (C1, C7) -/

set_option maxRecDepth 40000 in
/-- Decoding inverts encoding on every quotient the clamped range can
produce (`q = ntemp / 500` with `ntemp ∈ [-55000, 125000]` lies in
`[-110, 250]`). -/
theorem lm77_decode_encode_quot :
    ∀ q ∈ Finset.Icc (-110 : Int) 250,
      LM77_TEMP_FROM_REG (lm77_encode_quot q) = q * 500 := by
  decide

/-- The clamp is the identity inside the datasheet range. -/
theorem SENSORS_LIMIT_id (v : Int) (h1 : LM77_TEMP_MIN ≤ v) (h2 : v ≤ LM77_TEMP_MAX) :
    SENSORS_LIMIT v LM77_TEMP_MIN LM77_TEMP_MAX = v := by
  simp only [SENSORS_LIMIT, LM77_TEMP_MIN, LM77_TEMP_MAX] at *
  omega

/-- The truncated quotient of an in-range temperature lies in [-110, 250]. -/
theorem lm77_tdiv500_bounds (v : Int) (h1 : -55000 ≤ v) (h2 : v ≤ 125000) :
    -110 ≤ Int.tdiv v 500 ∧ Int.tdiv v 500 ≤ 250 := by
  cases v with
  | ofNat m =>
      have hq : Int.tdiv (Int.ofNat m) 500 = ((m / 500 : Nat) : Int) := rfl
      rw [hq, Int.ofNat_eq_natCast] at *
      omega
  | negSucc m =>
      have hq : Int.tdiv (Int.negSucc m) 500 = -(((m + 1) / 500 : Nat) : Int) := rfl
      rw [hq]
      rw [Int.negSucc_eq] at h1 h2
      omega

/-- C1: for every millidegree temperature v in [-55000, 125000], decoding
the encoded register value gives back v truncated toward zero to a
multiple of 500: `LM77_TEMP_FROM_REG (LM77_TEMP_TO_REG v) = (v / 500) * 500`
with C truncating division. -/
theorem lm77_temp_roundtrip (v : Int) (h1 : -55000 ≤ v) (h2 : v ≤ 125000) :
    LM77_TEMP_FROM_REG (LM77_TEMP_TO_REG v) = Int.tdiv v 500 * 500 := by
  have hb := lm77_tdiv500_bounds v h1 h2
  have hc : LM77_TEMP_TO_REG v = lm77_encode_quot (Int.tdiv v 500) := by
    unfold LM77_TEMP_TO_REG
    rw [SENSORS_LIMIT_id v h1 h2]
  rw [hc]
  exact lm77_decode_encode_quot _ (Finset.mem_Icc.mpr ⟨hb.1, hb.2⟩)

/-- Witness for C1 at v = 777: the round trip gives 500 = (777 / 500) * 500. -/
theorem lm77_temp_roundtrip_witness :
    LM77_TEMP_FROM_REG (LM77_TEMP_TO_REG 777) = Int.tdiv 777 500 * 500 :=
  lm77_temp_roundtrip 777 (by decide) (by decide)

/-- C7 counterexample: `LM77_TEMP_TO_REG (-500) = 0xfff8` and
`LM77_TEMP_TO_REG 500 = 0x0008` differ in bits 4..11 as well, not only in
the top 4 bits: their XOR restricted to the low 12 bits is 0xff0, not 0. -/
theorem lm77_sign_encode_counterexample :
    LM77_TEMP_TO_REG (-500) = 0xfff8 ∧ LM77_TEMP_TO_REG 500 = 0x0008 ∧
    ¬ ((LM77_TEMP_TO_REG (-500) ^^^ LM77_TEMP_TO_REG 500) &&& 0x0fff = 0) := by
  decide

/-- C7 amended: the two encodings differ exactly in bits 4..15
(XOR = 0xfff0, so they agree on bits 0..3 only); the top 4 bits are
all ones for -500 and all zero for 500. -/
theorem lm77_sign_encode_amended :
    LM77_TEMP_TO_REG (-500) ^^^ LM77_TEMP_TO_REG 500 = 0xfff0 ∧
    LM77_TEMP_TO_REG (-500) >>> 12 = 0xf ∧ LM77_TEMP_TO_REG 500 >>> 12 = 0 := by
  decide

/-! ## Cache refresh theorems (C6, C3) -/

/-- Unsigned subtraction agrees with the true elapsed time when the
clock did not move backward and did not wrap. -/
theorem ulong_sub_of_le (a b : Nat) (hb : b ≤ a) (ha : a < ULONG_MOD) :
    ulong_sub a b = a - b := by
  unfold ulong_sub ULONG_MOD at *
  omega

/-- When the staleness policy does not trigger, the call returns the
cached snapshot untouched and issues no bus read. -/
theorem lm77_update_not_needed (HZ now : Nat) (smbus : Nat → Nat → Int)
    (d : lm77_data) (h : lm77_needs_update HZ now d = false) :
    lm77_update_client HZ smbus now d = (d, 0) := by
  simp [lm77_update_client, h]

/-- When the staleness policy triggers, the call rebuilds the whole
snapshot from six bus reads. -/
theorem lm77_update_refreshes (HZ now : Nat) (smbus : Nat → Nat → Int)
    (d : lm77_data) (h : lm77_needs_update HZ now d = true) :
    lm77_update_client HZ smbus now d =
      ({ valid := true
         last_updated := now
         temp_input := LM77_TEMP_FROM_REG (toU16 (lm77_read_value (smbus 0) LM77_REG_TEMP))
         temp_hyst := LM77_TEMP_FROM_REG (toU16 (lm77_read_value (smbus 1) LM77_REG_T_HYST))
         temp_crit := LM77_TEMP_FROM_REG (toU16 (lm77_read_value (smbus 2) LM77_REG_T_CRIT))
         temp_min := LM77_TEMP_FROM_REG (toU16 (lm77_read_value (smbus 3) LM77_REG_T_LOW))
         temp_max := LM77_TEMP_FROM_REG (toU16 (lm77_read_value (smbus 4) LM77_REG_T_HIGH))
         alarms := toU16 (lm77_read_value (smbus 5) LM77_REG_TEMP) &&& LM77_ALARM_MASK }, 6) := by
  simp [lm77_update_client, h]

/-- The Bool trigger agrees with the claimed staleness condition. -/
theorem lm77_needs_update_iff (HZ now : Nat) (d : lm77_data) :
    lm77_needs_update HZ now d = true ↔
      (d.valid = false ∨ HZ + HZ / 2 < ulong_sub now d.last_updated ∨
        now < d.last_updated) := by
  unfold lm77_needs_update
  cases d.valid <;> simp

/-- C6: a snapshot request re-reads the registers (six bus reads, five
registers) exactly when the cache is invalid, the elapsed jiffies exceed
HZ + HZ/2, or the clock moved backward; otherwise the cached snapshot is
returned with no bus access; and after a triggered refresh at `now`, a
second request at `now2` within the window issues no bus read, so two
requests within the window perform only one set of bus reads. -/
theorem lm77_update_trigger_policy (HZ now now2 : Nat)
    (smbus smbus2 : Nat → Nat → Int) (d : lm77_data)
    (hn2 : now2 < ULONG_MOD) (h12 : now ≤ now2)
    (hwin : now2 ≤ now + HZ + HZ / 2)
    (htrig : lm77_needs_update HZ now d = true) :
    (∀ (m : Nat) (s : Nat → Nat → Int) (e : lm77_data),
        (lm77_update_client HZ s m e).2 = 6 ↔
          (e.valid = false ∨ HZ + HZ / 2 < ulong_sub m e.last_updated ∨
            m < e.last_updated)) ∧
    (∀ (m : Nat) (s : Nat → Nat → Int) (e : lm77_data),
        lm77_needs_update HZ m e = false → lm77_update_client HZ s m e = (e, 0)) ∧
    lm77_update_client HZ smbus2 now2 (lm77_update_client HZ smbus now d).1 =
      ((lm77_update_client HZ smbus now d).1, 0) := by
  refine ⟨?_, fun m s e h => lm77_update_not_needed HZ m s e h, ?_⟩
  · intro m s e
    rw [← lm77_needs_update_iff]
    by_cases h : lm77_needs_update HZ m e = true
    · simp [lm77_update_client, h]
    · rw [Bool.not_eq_true] at h
      simp [lm77_update_client, h]
  · rw [lm77_update_refreshes HZ now smbus d htrig]
    apply lm77_update_not_needed
    unfold lm77_needs_update
    have hs : ulong_sub now2 now = now2 - now := ulong_sub_of_le now2 now h12 hn2
    simp [hs]
    omega

/-- Witness for C6: with HZ = 100, a refresh at jiffy 1000 of a not yet
valid cache leaves a snapshot that a second request at jiffy 1050 serves
from the cache with zero bus reads. -/
theorem lm77_update_trigger_policy_witness :
    lm77_update_client 100 (fun _ _ => 0) 1050
        (lm77_update_client 100 (fun _ _ => 0) 1000 lm77_cache_invalid).1 =
      ((lm77_update_client 100 (fun _ _ => 0) 1000 lm77_cache_invalid).1, 0) :=
  (lm77_update_trigger_policy 100 1000 1050 (fun _ _ => 0) (fun _ _ => 0)
    lm77_cache_invalid (by decide) (by decide) (by decide) (by decide)).2.2

/-- C3 counterexample: with every SMBus read failing with errno -5, a
triggered refresh still overwrites the cached snapshot instead of
aborting without mutation: the refresh has no error check at all, and
the C function returns void, so nothing is surfaced to the caller. -/
theorem lm77_update_error_counterexample :
    (fun _ _ => (-5 : Int)) 0 LM77_REG_TEMP < 0 ∧
    lm77_needs_update 100 1000 lm77_cache0 = true ∧
    (lm77_update_client 100 (fun _ _ => (-5 : Int)) 1000 lm77_cache0).1 ≠
      lm77_cache0 := by
  decide

/-- C3 amended: a triggered refresh performs no error detection: it
stores the value decoded from whatever each read returned (a negative
errno is byte-swapped into u16 space like any register image), stamps
the refresh time, marks the snapshot valid, and surfaces nothing. -/
theorem lm77_update_no_error_handling (HZ now : Nat)
    (smbus : Nat → Nat → Int) (d : lm77_data)
    (htrig : lm77_needs_update HZ now d = true) :
    (lm77_update_client HZ smbus now d).1.valid = true ∧
    (lm77_update_client HZ smbus now d).1.last_updated = now ∧
    (lm77_update_client HZ smbus now d).1.temp_input =
      LM77_TEMP_FROM_REG (toU16 (lm77_read_value (smbus 0) LM77_REG_TEMP)) ∧
    (lm77_update_client HZ smbus now d).2 = 6 := by
  simp [lm77_update_client, htrig]

/-- Witness for the amended C3: the all-reads-fail refresh of the
counterexample indeed stamps, stores and validates. -/
theorem lm77_update_no_error_handling_witness :
    (lm77_update_client 100 (fun _ _ => (-5 : Int)) 1000 lm77_cache0).1.valid = true ∧
    (lm77_update_client 100 (fun _ _ => (-5 : Int)) 1000 lm77_cache0).1.last_updated = 1000 ∧
    (lm77_update_client 100 (fun _ _ => (-5 : Int)) 1000 lm77_cache0).1.temp_input =
      LM77_TEMP_FROM_REG (toU16 (lm77_read_value ((fun _ _ => (-5 : Int)) 0) LM77_REG_TEMP)) ∧
    (lm77_update_client 100 (fun _ _ => (-5 : Int)) 1000 lm77_cache0).2 = 6 :=
  lm77_update_no_error_handling 100 1000 (fun _ _ => (-5 : Int)) lm77_cache0 (by decide)

/-! ## Setpoint validation theorems (C5, C2, C4, C8) -/

/-- Both branches of the WRITE arm report the same diagnostics. -/
theorem lm77_proc_temp_write_violations (ctl_name nrels_mag : Nat)
    (results : List Int) (oob : Int) (d : lm77_data) :
    (lm77_proc_temp_write ctl_name nrels_mag results oob d).violations =
      lm77_violations (lm77_proc_check (lm77_proc_new ctl_name nrels_mag results) d) oob := by
  by_cases h : lm77_passed (lm77_proc_check (lm77_proc_new ctl_name nrels_mag results) d) oob = true
  · simp [lm77_proc_temp_write, h]
  · rw [Bool.not_eq_true] at h
    simp [lm77_proc_temp_write, h]

/-- The reported `passed` flag is the conjunction of the four checks. -/
theorem lm77_proc_temp_write_passed (ctl_name nrels_mag : Nat)
    (results : List Int) (oob : Int) (d : lm77_data) :
    (lm77_proc_temp_write ctl_name nrels_mag results oob d).passed =
      lm77_passed (lm77_proc_check (lm77_proc_new ctl_name nrels_mag results) d) oob := by
  by_cases h : lm77_passed (lm77_proc_check (lm77_proc_new ctl_name nrels_mag results) d) oob = true
  · simp [lm77_proc_temp_write, h]
  · rw [Bool.not_eq_true] at h
    simp [lm77_proc_temp_write, h]

/-- A failed validation issues no write and keeps the cached state. -/
theorem lm77_proc_temp_write_rejected (ctl_name nrels_mag : Nat)
    (results : List Int) (oob : Int) (d : lm77_data)
    (h : lm77_passed (lm77_proc_check (lm77_proc_new ctl_name nrels_mag results) d) oob = false) :
    (lm77_proc_temp_write ctl_name nrels_mag results oob d).writes = [] ∧
    (lm77_proc_temp_write ctl_name nrels_mag results oob d).data = d := by
  simp [lm77_proc_temp_write, h]

/-- C5: when any validation check fails no bus write is issued and the
cached state is untouched; the emitted diagnostics name exactly the
violated checks (all four are evaluated, not only the first); and in
particular proposing low = 10000, high = 9000 fails with the ordering
violation (check 3) and issues no bus write — whatever the value the
out-of-bounds `check[4]` read returns and whatever is cached. -/
theorem lm77_validator_rejects_atomically (ctl_name nrels_mag : Nat)
    (results : List Int) (oob : Int) (d : lm77_data) :
    ((lm77_proc_temp_write ctl_name nrels_mag results oob d).passed = false →
      (lm77_proc_temp_write ctl_name nrels_mag results oob d).writes = [] ∧
      (lm77_proc_temp_write ctl_name nrels_mag results oob d).data = d) ∧
    (∀ k : Nat,
      k ∈ (lm77_proc_temp_write ctl_name nrels_mag results oob d).violations ↔
        ((k = 1 ∧ lm77_fail1 (lm77_proc_check (lm77_proc_new ctl_name nrels_mag results) d) = true) ∨
         (k = 2 ∧ lm77_fail2 (lm77_proc_check (lm77_proc_new ctl_name nrels_mag results) d) = true) ∨
         (k = 3 ∧ lm77_fail3 (lm77_proc_check (lm77_proc_new ctl_name nrels_mag results) d) = true) ∨
         (k = 4 ∧ lm77_fail4 (lm77_proc_check (lm77_proc_new ctl_name nrels_mag results) d) oob = true))) ∧
    (3 ∈ (lm77_proc_temp_write LM77_SYSCTL_TEMP 2 [10000, 9000] oob d).violations ∧
      (lm77_proc_temp_write LM77_SYSCTL_TEMP 2 [10000, 9000] oob d).writes = [] ∧
      (lm77_proc_temp_write LM77_SYSCTL_TEMP 2 [10000, 9000] oob d).data = d) := by
  refine ⟨?_, ?_, ?_, ?_⟩
  · intro hfail
    rw [lm77_proc_temp_write_passed] at hfail
    exact lm77_proc_temp_write_rejected ctl_name nrels_mag results oob d hfail
  · intro k
    rw [lm77_proc_temp_write_violations]
    unfold lm77_violations
    cases h1 : lm77_fail1 (lm77_proc_check (lm77_proc_new ctl_name nrels_mag results) d) <;>
      cases h2 : lm77_fail2 (lm77_proc_check (lm77_proc_new ctl_name nrels_mag results) d) <;>
        cases h3 : lm77_fail3 (lm77_proc_check (lm77_proc_new ctl_name nrels_mag results) d) <;>
          cases h4 : lm77_fail4 (lm77_proc_check (lm77_proc_new ctl_name nrels_mag results) d) oob <;>
            simp
  · rw [lm77_proc_temp_write_violations]
    have hn : lm77_proc_check (lm77_proc_new LM77_SYSCTL_TEMP 2 [10000, 9000]) d =
        { check0 := 10000, check1 := 9000, check2 := d.temp_crit, check3 := d.temp_hyst } := rfl
    rw [hn]
    unfold lm77_violations
    have h3 : lm77_fail3
        { check0 := (10000 : Int), check1 := 9000, check2 := d.temp_crit, check3 := d.temp_hyst } = true := rfl
    rw [h3]
    simp [List.mem_append]
  · apply lm77_proc_temp_write_rejected
    have hn : lm77_proc_check (lm77_proc_new LM77_SYSCTL_TEMP 2 [10000, 9000]) d =
        { check0 := 10000, check1 := 9000, check2 := d.temp_crit, check3 := d.temp_hyst } := rfl
    rw [hn]
    unfold lm77_passed
    have h3 : lm77_fail3
        { check0 := (10000 : Int), check1 := 9000, check2 := d.temp_crit, check3 := d.temp_hyst } = true := rfl
    rw [h3]
    simp

/-- C2: the margin check reads the out-of-bounds `check[4]` instead of
the hysteresis candidate `check[3]`.  With cached hysteresis 600 and
proposed low = 0, high = 1000, the update must fail per the spec
(0 + 600 ≥ 1000 - 600), yet with the indeterminate out-of-bounds value
at 1 the code accepts it and writes both setpoint registers, although
the hysteresis candidate was indeed merged into `check[3]`. -/
theorem lm77_margin_check_ignores_hysteresis :
    (lm77_proc_check (lm77_proc_new LM77_SYSCTL_TEMP 2 [0, 1000]) lm77_cache600).check3 = 600 ∧
    spec_margin_ok 0 1000 600 = false ∧
    (lm77_proc_temp_write LM77_SYSCTL_TEMP 2 [0, 1000] 1 lm77_cache600).passed = true ∧
    (lm77_proc_temp_write LM77_SYSCTL_TEMP 2 [0, 1000] 1 lm77_cache600).writes =
      [(LM77_REG_T_LOW, LM77_TEMP_TO_REG 0), (LM77_REG_T_HIGH, LM77_TEMP_TO_REG 1000)] := by
  decide

/-- C4: a validated update that provides only the hysteresis writes the
hysteresis register but stores the new value into the cached high
setpoint (`data->temp_max = new[3]` in the source), leaving the cached
hysteresis stale — while, for contrast, a critical-only update keeps
every other field unchanged in registers and cache. -/
theorem lm77_hyst_update_clobbers_cached_high :
    (lm77_proc_temp_write LM77_SYSCTL_TEMP_HYST 1 [3000] 0 lm77_cache0).passed = true ∧
    (lm77_proc_temp_write LM77_SYSCTL_TEMP_HYST 1 [3000] 0 lm77_cache0).writes =
      [(LM77_REG_T_HYST, LM77_TEMP_TO_REG 3000)] ∧
    lm77_cache0.temp_max = 70000 ∧
    (lm77_proc_temp_write LM77_SYSCTL_TEMP_HYST 1 [3000] 0 lm77_cache0).data.temp_max = 3000 ∧
    (lm77_proc_temp_write LM77_SYSCTL_TEMP_HYST 1 [3000] 0 lm77_cache0).data.temp_hyst = 2000 ∧
    (lm77_proc_temp_write LM77_SYSCTL_TEMP_CRIT 1 [80000] 0 lm77_cache0).data =
      { lm77_cache0 with temp_crit := 80000 } ∧
    (lm77_proc_temp_write LM77_SYSCTL_TEMP_CRIT 1 [80000] 0 lm77_cache0).writes =
      [(LM77_REG_T_CRIT, LM77_TEMP_TO_REG 80000)] := by
  decide

/-- C8: a WRITE with no fields validates the cached state: against a
corrupt cache (low ≥ high) it is rejected with the ordering violation
and no writes; but against a healthy cache that satisfies every intended
check its acceptance depends on the out-of-bounds `check[4]` value — a
large stack value makes the margin check reject the untouched healthy
state, while a small one lets the no-op pass with no writes. -/
theorem lm77_noop_write_validation :
    (lm77_proc_temp_write LM77_SYSCTL_TEMP 0 [] 0 lm77_cache_corrupt).passed = false ∧
    3 ∈ (lm77_proc_temp_write LM77_SYSCTL_TEMP 0 [] 0 lm77_cache_corrupt).violations ∧
    (lm77_proc_temp_write LM77_SYSCTL_TEMP 0 [] 0 lm77_cache_corrupt).writes = [] ∧
    (lm77_proc_temp_write LM77_SYSCTL_TEMP 0 [] 0 lm77_cache_corrupt).data = lm77_cache_corrupt ∧
    spec_margin_ok lm77_cache0.temp_min lm77_cache0.temp_max lm77_cache0.temp_hyst = true ∧
    (lm77_proc_temp_write LM77_SYSCTL_TEMP 0 [] 40000 lm77_cache0).passed = false ∧
    (lm77_proc_temp_write LM77_SYSCTL_TEMP 0 [] 40000 lm77_cache0).violations = [4] ∧
    (lm77_proc_temp_write LM77_SYSCTL_TEMP 0 [] 0 lm77_cache0).passed = true ∧
    (lm77_proc_temp_write LM77_SYSCTL_TEMP 0 [] 0 lm77_cache0).writes = [] := by
  decide

/-! ## Probe and chip setup theorems (C9, C10) -/

/-- C9: whenever any probe check fails (register aliasing, sign bits,
configuration bits, or a shadow-register mismatch), `lm77_detect`
creates no device state: the client is not attached, the allocated data
is freed, and the scan caller receives 0 — "no device here", not an
error. -/
theorem lm77_probe_reject_clean (ob ow : Nat → Nat → Int)
    (h : lm77_probe ob ow = none) :
    lm77_detect ob ow =
      { ret := 0, attached := false, freed := true, init_writes := [] } := by
  unfold lm77_detect
  rw [h]

/-- Witness for C9: a bus whose word registers all read 0x10 passes the
aliasing scan but fails the sign-bit check, and the probe rejects it
cleanly. -/
theorem lm77_probe_reject_clean_witness :
    lm77_detect (fun _ _ => 0) (fun _ _ => (0x10 : Int)) =
      { ret := 0, attached := false, freed := true, init_writes := [] } :=
  lm77_probe_reject_clean (fun _ _ => 0) (fun _ _ => (0x10 : Int)) (by decide)

/-- C10: on every successful attach the driver writes the value 0 to the
byte-wide configuration register 0x01 — clearing shutdown, interrupt
mode, both polarity bits and the fault-queue bit — whatever the bus
returned for the configuration read (the previous value is read but
never merged into the written value). -/
theorem lm77_attach_clears_config (ob ow : Nat → Nat → Int)
    (h : (lm77_detect ob ow).attached = true) :
    (lm77_detect ob ow).init_writes = [(LM77_REG_CONF, 0)] := by
  unfold lm77_detect at *
  cases hp : lm77_probe ob ow with
  | none => rw [hp] at h; simp at h
  | some c => rfl

/-- Witness for C10: an all-zero bus is accepted by the probe, and the
attach writes 0 to the configuration register. -/
theorem lm77_attach_clears_config_witness :
    (lm77_detect (fun _ _ => 0) (fun _ _ => 0)).init_writes = [(LM77_REG_CONF, 0)] :=
  lm77_attach_clears_config (fun _ _ => 0) (fun _ _ => 0) (by decide)
